import Mathlib

/-!
Verification of the execution-time context object of `cloudify-common`
(`src/cloudify/context.py`): the `ContextCapabilities`, `CloudifyRelatedNode`
and `CloudifyContext` classes.

Python dictionaries are modelled as association lists (`Dict`), keeping
Python's semantics: lookup finds the first binding, indexed assignment
updates an existing binding in place or appends a fresh one, and `values()`
iterates in list order.  Python exceptions are modelled with `Except` over
an explicit error type `Err`; operations of the stateful `CloudifyContext`
return an `Outcome` carrying the result, the post-state and the list of
storage-collaborator calls performed, so that exceptions do not roll back
state mutations (as in Python) and storage traffic can be counted exactly.
-/

set_option autoImplicit false

universe u v

/-- A Python `dict` with string keys, as an association list. -/
abbrev Dict (α : Type u) := List (String × α)

/-- Python `d.get(key)` / first-binding lookup. -/
def Dict.get? {α : Type u} : Dict α → String → Option α
  | [], _ => none
  | (k, v) :: rest, key => if k = key then some v else Dict.get? rest key

/-- Python `key in d`. -/
def Dict.containsKey {α : Type u} (d : Dict α) (key : String) : Bool :=
  (d.get? key).isSome

/-- Python `d.values()`, in insertion order. -/
def Dict.values {α : Type u} (d : Dict α) : List α :=
  d.map Prod.snd

/-- Python `d[key] = v`: update the existing binding in place, else append. -/
def Dict.setItem {α : Type u} : Dict α → String → α → Dict α
  | [], key, v => [(key, v)]
  | (k, w) :: rest, key, v =>
    if k = key then (key, v) :: rest else (k, w) :: Dict.setItem rest key v

/--
The error taxonomy raised by `context.py`: `KeyError` on a plain dict /
NodeState lookup (`KeyNotFound`), `KeyError` for a capability present in
zero dependency maps (`CapabilityNotFound`), `RuntimeError` for a
capability present in two or more maps (`CapabilityAmbiguous`, carrying
the offending key and the full capability structure, as the Python
message interpolates both), and `RuntimeError` for operations requiring a
node in context (`NoNodeInContext`, carrying the message text).
-/
inductive Err (α : Type u) where
  | keyNotFound (key : String)
  | capabilityNotFound (key : String) (capabilities : Dict (Dict α))
  | capabilityAmbiguous (key : String) (capabilities : Dict (Dict α))
  | noNodeInContext (msg : String)
deriving DecidableEq

/-- Python `d[key]` on a plain dict: the value, or `KeyError`. -/
def Dict.getItem {α : Type u} (d : Dict α) (key : String) : Except (Err α) α :=
  match d.get? key with
  | some v => .ok v
  | none => .error (.keyNotFound key)

/-- `ContextCapabilities`: a read-only view over the payload's
`capabilities` mapping (dependency node id → its runtime properties). -/
structure ContextCapabilities (α : Type u) where
  capabilities : Dict (Dict α)

/--
The loop body of `ContextCapabilities._find_item`: iterate over all
dependency runtime-properties maps; on a second map containing `key`,
raise the ambiguity error.  The accumulator is `some v` exactly when the
Python `found` flag is set (`value` is assigned precisely when `found`
becomes true).  `all` is the full `self._capabilities` structure
interpolated into the error.
-/
def findItemAux {α : Type u} (key : String) (all : Dict (Dict α)) :
    List (Dict α) → Option α → Except (Err α) (Option α)
  | [], acc => .ok acc
  | caps :: rest, acc =>
    if caps.containsKey key then
      if acc.isSome then .error (.capabilityAmbiguous key all)
      else findItemAux key all rest (caps.get? key)
    else findItemAux key all rest acc

/-- `ContextCapabilities._find_item`. -/
def ContextCapabilities.findItem {α : Type u} (c : ContextCapabilities α)
    (key : String) : Except (Err α) (Option α) :=
  findItemAux key c.capabilities c.capabilities.values none

/-- `ContextCapabilities.__getitem__`: not-found raises `KeyError`. -/
def ContextCapabilities.getItem {α : Type u} (c : ContextCapabilities α)
    (key : String) : Except (Err α) α :=
  match c.findItem key with
  | .error e => .error e
  | .ok none => .error (.capabilityNotFound key c.capabilities)
  | .ok (some v) => .ok v

/-- `ContextCapabilities.__contains__`: returns the `found` flag of
`_find_item` (and propagates any exception `_find_item` raises). -/
def ContextCapabilities.containsKey {α : Type u} (c : ContextCapabilities α)
    (key : String) : Except (Err α) Bool :=
  match c.findItem key with
  | .error e => .error e
  | .ok acc => .ok acc.isSome

/-- `ContextCapabilities.get_all`. -/
def ContextCapabilities.get_all {α : Type u} (c : ContextCapabilities α) :
    Dict (Dict α) :=
  c.capabilities

/-- The dependency maps that contain `key` (used to state the claims:
"present in zero / exactly one / two or more dependency maps"). -/
def matchingMaps {α : Type u} (caps : Dict (Dict α)) (key : String) :
    List (Dict α) :=
  caps.values.filter (fun m => m.containsKey key)

/-- The `related` sub-record of the invocation payload, as accessed by
`CloudifyRelatedNode` (`self._related['node_id']`,
`self._related['node_properties']`). -/
structure RelatedRecord (α : Type u) where
  node_id : String
  node_properties : Dict α

/-- The invocation payload (`ctx` dict handed to `CloudifyContext`),
restricted to the keys the verified operations read; a Python key that may
be absent is an `Option` field. -/
structure Payload (α : Type u) where
  node_id : Option String := none
  node_name : Option String := none
  node_properties : Option (Dict α) := none
  capabilities : Option (Dict (Dict α)) := none
  related : Option (RelatedRecord α) := none
  task_name : Option String := none

/-- `CloudifyRelatedNode`: the view over the other side of a relationship
invocation; `_runtime_properties` is resolved in `__init__`. -/
structure CloudifyRelatedNode (α : Type u) where
  related : RelatedRecord α
  runtime_properties : Dict α

/-- `CloudifyRelatedNode.__init__`: `self._related = ctx['related']`, and
`self._runtime_properties = ctx['capabilities'][self.node_id]` when
`'capabilities' in ctx and self.node_id in ctx['capabilities']`, else `{}`. -/
def mkCloudifyRelatedNode {α : Type u} (ctx : Payload α) (rel : RelatedRecord α) :
    CloudifyRelatedNode α :=
  { related := rel
    runtime_properties :=
      match ctx.capabilities with
      | some caps =>
        match caps.get? rel.node_id with
        | some rp => rp
        | none => []
      | none => [] }

/-- `CloudifyRelatedNode.node_id`. -/
def CloudifyRelatedNode.node_id {α : Type u} (r : CloudifyRelatedNode α) : String :=
  r.related.node_id

/-- `CloudifyRelatedNode.properties`. -/
def CloudifyRelatedNode.properties {α : Type u} (r : CloudifyRelatedNode α) : Dict α :=
  r.related.node_properties

/-- `CloudifyRelatedNode.__getitem__`: declared properties first, else the
runtime properties (a plain dict access that raises `KeyError` on a miss). -/
def CloudifyRelatedNode.getItem {α : Type u} (r : CloudifyRelatedNode α)
    (key : String) : Except (Err α) α :=
  if r.properties.containsKey key then r.properties.getItem key
  else r.runtime_properties.getItem key

/-- `CloudifyRelatedNode.__contains__`. -/
def CloudifyRelatedNode.containsKey {α : Type u} (r : CloudifyRelatedNode α)
    (key : String) : Bool :=
  r.properties.containsKey key || r.runtime_properties.containsKey key

/-- Modelled from the spec: the `NodeState` record returned by
`get_node_state` is defined in the `manager` module, which is not under
`src/`; per the spec's external-interface section it is "the current
persisted runtime-properties record for a node" and "must support indexed
get/set/contains on itself (the record itself behaves as a small key-value
store)". -/
structure NodeState (α : Type u) where
  runtime_properties : Dict α

/-- Modelled from the spec: indexed get on a `NodeState` record. -/
def NodeState.getItem {α : Type u} (ns : NodeState α) (key : String) :
    Except (Err α) α :=
  ns.runtime_properties.getItem key

/-- Modelled from the spec: indexed set on a `NodeState` record. -/
def NodeState.setItem {α : Type u} (ns : NodeState α) (key : String) (v : α) :
    NodeState α :=
  ⟨ns.runtime_properties.setItem key v⟩

/-- Modelled from the spec: indexed contains on a `NodeState` record. -/
def NodeState.containsKey {α : Type u} (ns : NodeState α) (key : String) : Bool :=
  ns.runtime_properties.containsKey key

/-- A call made to the external storage collaborator. -/
inductive StorageCall (α : Type u) where
  | getNodeState (node_id : String)
  | updateNodeState (ns : NodeState α)

/-- The mutable fields of a `CloudifyContext` instance: the immutable
payload reference `self._context`, the node-state cache `self._node_state`
and the lifecycle flag `self._lifecycle_state`. -/
structure CtxState (α : Type u) where
  context : Payload α
  node_state : Option (NodeState α)
  lifecycle_state : Option String

/-- `CloudifyContext.__init__`: empty cache, unset lifecycle flag. -/
def initCtx {α : Type u} (p : Payload α) : CtxState α :=
  { context := p, node_state := none, lifecycle_state := none }

/-- `CloudifyContext.capabilities`, built in `__init__` from
`ctx['capabilities']` when present, else `{}`. -/
def ctxCapabilities {α : Type u} (p : Payload α) : ContextCapabilities α :=
  { capabilities :=
      match p.capabilities with
      | some caps => caps
      | none => [] }

/-- `CloudifyContext.related`, built in `__init__` from `ctx['related']`
when present, else `None`. -/
def ctxRelated {α : Type u} (p : Payload α) : Option (CloudifyRelatedNode α) :=
  match p.related with
  | some rel => some (mkCloudifyRelatedNode p rel)
  | none => none

/-- The outcome of one `CloudifyContext` operation: the result (or the
exception raised), the post-state — exceptions do not roll back state
mutations already performed — and the storage-collaborator calls made. -/
structure Outcome (α : Type u) (β : Type v) where
  result : Except (Err α) β
  state : CtxState α
  calls : List (StorageCall α)

/-- `CloudifyContext.STARTED`. -/
def STARTED : String := "started"

/-- `CloudifyContext.STOPPED`. -/
def STOPPED : String := "stopped"

/-- `CloudifyContext.is_set_started`. -/
def isSetStarted {α : Type u} (s : CtxState α) : Bool :=
  decide (s.lifecycle_state = some STARTED)

/-- `CloudifyContext.is_set_stopped`. -/
def isSetStopped {α : Type u} (s : CtxState α) : Bool :=
  decide (s.lifecycle_state = some STOPPED)

/-- `CloudifyContext._verify_node_in_context`. -/
def verifyNodeInContext {α : Type u} (s : CtxState α) : Except (Err α) Unit :=
  match s.context.node_id with
  | none => .error (.noNodeInContext "Invocation requires a node in context")
  | some _ => .ok ()

/-- `CloudifyContext.set_started`: verify a node is in context, then set
the lifecycle flag to `STARTED`. -/
def setStarted {α : Type u} (s : CtxState α) : Outcome α Unit :=
  match verifyNodeInContext s with
  | .error e => ⟨.error e, s, []⟩
  | .ok _ => ⟨.ok (), { s with lifecycle_state := some STARTED }, []⟩

/-- `CloudifyContext.set_stopped`: verify a node is in context, then set
the lifecycle flag to `STOPPED`. -/
def setStopped {α : Type u} (s : CtxState α) : Outcome α Unit :=
  match verifyNodeInContext s with
  | .error e => ⟨.error e, s, []⟩
  | .ok _ => ⟨.ok (), { s with lifecycle_state := some STOPPED }, []⟩

/-- `CloudifyContext._get_node_state_if_needed`: fail when no node id is in
the payload; otherwise fetch via `get_node_state(node_id)` only when the
cache is empty.  Returns the (now cached) `NodeState`.  `store` is the
storage collaborator's persisted content per node id. -/
def getNodeStateIfNeeded {α : Type u} (store : String → Dict α) (s : CtxState α) :
    Outcome α (NodeState α) :=
  match s.context.node_id with
  | none =>
    ⟨.error (.noNodeInContext "Cannot get node state - invocation is not in a context of node"),
      s, []⟩
  | some nid =>
    match s.node_state with
    | some ns => ⟨.ok ns, s, []⟩
    | none =>
      ⟨.ok ⟨store nid⟩, { s with node_state := some ⟨store nid⟩ }, [.getNodeState nid]⟩

/-- `CloudifyContext.runtime_properties`: fetch-if-needed, then the cached
record's `runtime_properties`. -/
def runtimeProperties {α : Type u} (store : String → Dict α) (s : CtxState α) :
    Outcome α (Dict α) :=
  let o := getNodeStateIfNeeded store s
  match o.result with
  | .error e => ⟨.error e, o.state, o.calls⟩
  | .ok ns => ⟨.ok ns.runtime_properties, o.state, o.calls⟩

/-- The declared-property lookup made by `CloudifyContext.__getitem__` /
`__contains__`: `self.properties is not None and key in self.properties`,
with the value `self.properties[key]`. -/
def CtxState.declaredGet {α : Type u} (s : CtxState α) (key : String) : Option α :=
  match s.context.node_properties with
  | some props => props.get? key
  | none => none

/-- `CloudifyContext.__getitem__`: declared properties first; on a miss,
fetch-if-needed and resolve from the cached `NodeState` (whose own indexed
get raises `KeyError` when the key is absent). -/
def ctxGetItem {α : Type u} (store : String → Dict α) (s : CtxState α)
    (key : String) : Outcome α α :=
  match s.declaredGet key with
  | some v => ⟨.ok v, s, []⟩
  | none =>
    let o := getNodeStateIfNeeded store s
    match o.result with
    | .error e => ⟨.error e, o.state, o.calls⟩
    | .ok ns => ⟨ns.getItem key, o.state, o.calls⟩

/-- `CloudifyContext.__setitem__`: fetch-if-needed, then record the value
in the cached `NodeState` only (no storage write). -/
def ctxSetItem {α : Type u} (store : String → Dict α) (s : CtxState α)
    (key : String) (v : α) : Outcome α Unit :=
  let o := getNodeStateIfNeeded store s
  match o.result with
  | .error e => ⟨.error e, o.state, o.calls⟩
  | .ok ns => ⟨.ok (), { o.state with node_state := some (ns.setItem key v) }, o.calls⟩

/-- `CloudifyContext.__contains__`: true on a declared hit, else
fetch-if-needed and check the cached `NodeState`. -/
def ctxContains {α : Type u} (store : String → Dict α) (s : CtxState α)
    (key : String) : Outcome α Bool :=
  if (s.declaredGet key).isSome then ⟨.ok true, s, []⟩
  else
    let o := getNodeStateIfNeeded store s
    match o.result with
    | .error e => ⟨.error e, o.state, o.calls⟩
    | .ok ns => ⟨.ok (ns.containsKey key), o.state, o.calls⟩

/-- `CloudifyContext.update`: when a `NodeState` is cached, persist it via
`update_node_state` and drop the cache; otherwise do nothing. -/
def ctxUpdate {α : Type u} (s : CtxState α) : Outcome α Unit :=
  match s.node_state with
  | some ns => ⟨.ok (), { s with node_state := none }, [.updateNodeState ns]⟩
  | none => ⟨.ok (), s, []⟩

/-- `n` successive accesses of `ctx.runtime_properties` on the same
context instance, with the storage calls all accesses make, in order. -/
def runtimePropsN {α : Type u} (store : String → Dict α) :
    Nat → CtxState α → CtxState α × List (StorageCall α)
  | 0, s => (s, [])
  | n + 1, s =>
    let o := runtimeProperties store s
    let r := runtimePropsN store n o.state
    (r.1, o.calls ++ r.2)

/-- One operation a task body can perform on its `CloudifyContext`. -/
inductive CtxOp (α : Type u) where
  | startedOp
  | stoppedOp
  | updateOp
  | rtPropsOp
  | getOp (key : String)
  | setOp (key : String) (v : α)
  | containsOp (key : String)

/-- The state transition of one context operation (results and raised
exceptions discarded; Python exceptions do not roll back state). -/
def runOp {α : Type u} (store : String → Dict α) (op : CtxOp α) (s : CtxState α) :
    CtxState α :=
  match op with
  | .startedOp => (setStarted s).state
  | .stoppedOp => (setStopped s).state
  | .updateOp => (ctxUpdate s).state
  | .rtPropsOp => (runtimeProperties store s).state
  | .getOp key => (ctxGetItem store s key).state
  | .setOp key val => (ctxSetItem store s key val).state
  | .containsOp key => (ctxContains store s key).state

/-- A sequence of context operations, run left to right. -/
def runOps {α : Type u} (store : String → Dict α) :
    List (CtxOp α) → CtxState α → CtxState α
  | [], s => s
  | op :: rest, s => runOps store rest (runOp store op s)

/-- A handler attached to a Python logger: either one of the handlers
already registered on the logger before `_init_cloudify_logger` runs
(`prior`), or the freshly constructed `CloudifyPluginLoggingHandler`
(`cloudify`). -/
inductive Handler where
  | prior (id : Nat)
  | cloudify
deriving DecidableEq

/-- The observable state of a `logging.Logger`. -/
structure PyLogger where
  level : Nat
  handlers : List Handler
  propagate : Bool
deriving DecidableEq

/-- `logging.INFO`. -/
def INFO : Nat := 20

/-- `logging.getLogger(name)`: the registered logger of that name, or a
fresh one (level `NOTSET = 0`, no handlers, propagation enabled). -/
def getLogger (registry : Dict PyLogger) (name : String) : PyLogger :=
  match registry.get? name with
  | some lg => lg
  | none => { level := 0, handlers := [], propagate := true }

/-- `logging.Logger.removeHandler(h)`: delete the first occurrence of `h`
from the handler list when present. -/
def removeHandler (lg : PyLogger) (h : Handler) : PyLogger :=
  if lg.handlers.contains h then { lg with handlers := lg.handlers.erase h } else lg

/-- `logging.Logger.addHandler(h)`: append `h` unless already attached. -/
def addHandler (lg : PyLogger) (h : Handler) : PyLogger :=
  if lg.handlers.contains h then lg else { lg with handlers := lg.handlers ++ [h] }

/-- One pass of the loop
`for h in self._logger.handlers: self._logger.removeHandler(h)` with
Python's list-iterator semantics: the iterator keeps an integer cursor into
the very list the loop mutates, advancing it each step and stopping once it
reaches the current length; removing the element at the cursor shifts the
next element into its place, which the advancing cursor then skips.  The
iteration count never exceeds the initial length (the cursor grows by one
per step while the length never grows), so structural fuel of the initial
length makes this total without changing its result. -/
def removeHandlersLoopFuel : Nat → PyLogger → Nat → PyLogger
  | 0, lg, _ => lg
  | fuel + 1, lg, i =>
    if h : i < lg.handlers.length then
      removeHandlersLoopFuel fuel (removeHandler lg (lg.handlers.get ⟨i, h⟩)) (i + 1)
    else lg

/-- The handler-removal loop of `_init_cloudify_logger`, started at cursor
position 0. -/
def removeHandlersLoop (lg : PyLogger) : PyLogger :=
  removeHandlersLoopFuel lg.handlers.length lg 0

/-- `CloudifyContext._init_cloudify_logger`: pick the logger named after
the task name (generic fallback `'cloudify_plugin'`), set its level to
`INFO`, run the handler-removal loop, enable propagation, attach the
context-aware handler, and return the updated registry with the chosen
logger name. -/
def initCloudifyLogger (registry : Dict PyLogger) (task_name : Option String) :
    Dict PyLogger × String :=
  let logger_name :=
    match task_name with
    | some t => t
    | none => "cloudify_plugin"
  let lg := getLogger registry logger_name
  let lg := { lg with level := INFO }
  let lg := removeHandlersLoop lg
  let lg := { lg with propagate := true }
  let lg := addHandler lg .cloudify
  (registry.setItem logger_name lg, logger_name)


/-- The scan reaching the end of the maps with no further match returns the
accumulator unchanged. -/
theorem findItemAux_no_match {α : Type u} (key : String) (all : Dict (Dict α))
    (l : List (Dict α)) (acc : Option α)
    (h : l.filter (fun m => m.containsKey key) = []) :
    findItemAux key all l acc = .ok acc := by
  induction l with
  | nil => rfl
  | cons m rest ih =>
    by_cases hm : m.containsKey key
    · rw [List.filter_cons_of_pos (by simpa using hm)] at h
      exact absurd h (List.cons_ne_nil _ _)
    · rw [List.filter_cons_of_neg (by simpa using hm)] at h
      simp only [findItemAux, hm, Bool.false_eq_true, if_false]
      exact ih h

/-- Once the `found` flag is set, any further match raises the ambiguity
error. -/
theorem findItemAux_acc_some {α : Type u} (key : String) (all : Dict (Dict α))
    (l : List (Dict α)) (v : α)
    (h : l.filter (fun m => m.containsKey key) ≠ []) :
    findItemAux key all l (some v) = .error (.capabilityAmbiguous key all) := by
  induction l with
  | nil => simp at h
  | cons m rest ih =>
    by_cases hm : m.containsKey key
    · simp [findItemAux, hm]
    · rw [List.filter_cons_of_neg (by simpa using hm)] at h
      simp only [findItemAux, hm, Bool.false_eq_true, if_false]
      exact ih h

/-- Exactly one dependency map matches: the scan returns that map's value. -/
theorem findItemAux_one {α : Type u} (key : String) (all : Dict (Dict α))
    (l : List (Dict α)) (d : Dict α)
    (h : l.filter (fun m => m.containsKey key) = [d]) :
    findItemAux key all l none = .ok (d.get? key) := by
  induction l with
  | nil => simp at h
  | cons m rest ih =>
    by_cases hm : m.containsKey key
    · rw [List.filter_cons_of_pos (by simpa using hm)] at h
      obtain ⟨rfl, hrest⟩ := List.cons_eq_cons.mp h
      simp only [findItemAux, hm, if_true, Option.isSome_none, Bool.false_eq_true, if_false]
      exact findItemAux_no_match key all rest _ hrest
    · rw [List.filter_cons_of_neg (by simpa using hm)] at h
      simp only [findItemAux, hm, Bool.false_eq_true, if_false]
      exact ih h

/-- Two or more dependency maps match: the scan raises the ambiguity error. -/
theorem findItemAux_ambiguous {α : Type u} (key : String) (all : Dict (Dict α))
    (l : List (Dict α))
    (h : 2 ≤ (l.filter (fun m => m.containsKey key)).length) :
    findItemAux key all l none = .error (.capabilityAmbiguous key all) := by
  induction l with
  | nil => simp at h
  | cons m rest ih =>
    by_cases hm : m.containsKey key
    · have hs : (Dict.get? m key).isSome = true := hm
      obtain ⟨v, hv⟩ := Option.isSome_iff_exists.mp hs
      rw [List.filter_cons_of_pos (by simpa using hm), List.length_cons] at h
      have hr : rest.filter (fun m => m.containsKey key) ≠ [] := by
        intro hnil
        rw [hnil] at h
        simp at h
      simp only [findItemAux, hm, if_true, Option.isSome_none, Bool.false_eq_true, if_false, hv]
      exact findItemAux_acc_some key all rest v hr
    · rw [List.filter_cons_of_neg (by simpa using hm)] at h
      simp only [findItemAux, hm, Bool.false_eq_true, if_false]
      exact ih h

/-- C1 counterexample: with `capabilities = {"a": {"x": 1}, "b": {"x": 2}}`
the key `"x"` appears in two dependency maps, yet `__contains__` does not
return true — `_find_item` raises the ambiguity error while `__contains__`
is still consuming it, so the error propagates out of `in`. -/
theorem contains_ambiguous_raises :
    2 ≤ (matchingMaps [("a", [("x", 1)]), ("b", [("x", 2)])] "x").length ∧
    ContextCapabilities.containsKey (α := Nat) ⟨[("a", [("x", 1)]), ("b", [("x", 2)])]⟩ "x"
      = .error (.capabilityAmbiguous "x" [("a", [("x", 1)]), ("b", [("x", 2)])]) ∧
    ContextCapabilities.containsKey (α := Nat) ⟨[("a", [("x", 1)]), ("b", [("x", 2)])]⟩ "x"
      ≠ .ok true :=
  ⟨by decide, rfl, fun h => Except.noConfusion h⟩

/-- C1 (amended): for every capability key present in two or more dependency
runtime-properties maps, `get` fails with `CapabilityAmbiguous` (the failure
detail holds the offending key and the full capability structure), and
`contains` also fails with the same `CapabilityAmbiguous` error instead of
returning true. -/
theorem capability_ambiguous_get_and_contains {α : Type u}
    (c : ContextCapabilities α) (key : String)
    (h : 2 ≤ (matchingMaps c.capabilities key).length) :
    c.getItem key = .error (.capabilityAmbiguous key c.capabilities) ∧
    c.containsKey key = .error (.capabilityAmbiguous key c.capabilities) := by
  have hfind : c.findItem key = .error (.capabilityAmbiguous key c.capabilities) :=
    findItemAux_ambiguous key c.capabilities c.capabilities.values
      (by simpa [matchingMaps] using h)
  exact ⟨by simp [ContextCapabilities.getItem, hfind],
         by simp [ContextCapabilities.containsKey, hfind]⟩

/-- Witness for `capability_ambiguous_get_and_contains` at
`capabilities = {"a": {"x": 1}, "b": {"x": 2}}`, key `"x"`. -/
theorem capability_ambiguous_get_and_contains_witness :
    ContextCapabilities.getItem (α := Nat) ⟨[("a", [("x", 1)]), ("b", [("x", 2)])]⟩ "x"
      = .error (.capabilityAmbiguous "x" [("a", [("x", 1)]), ("b", [("x", 2)])]) ∧
    ContextCapabilities.containsKey (α := Nat) ⟨[("a", [("x", 1)]), ("b", [("x", 2)])]⟩ "x"
      = .error (.capabilityAmbiguous "x" [("a", [("x", 1)]), ("b", [("x", 2)])]) :=
  capability_ambiguous_get_and_contains
    ⟨[("a", [("x", 1)]), ("b", [("x", 2)])]⟩ "x" (by decide)

/-- C2: a capability key present in exactly one dependency map is returned
by `get` (that map's value) and `contains` is true; a key present in zero
maps makes `get` fail with `CapabilityNotFound` and `contains` false. -/
theorem capability_unique_and_missing {α : Type u}
    (c : ContextCapabilities α) (key : String) :
    (∀ d v, matchingMaps c.capabilities key = [d] → Dict.get? d key = some v →
      c.getItem key = .ok v ∧ c.containsKey key = .ok true) ∧
    (matchingMaps c.capabilities key = [] →
      c.getItem key = .error (.capabilityNotFound key c.capabilities) ∧
      c.containsKey key = .ok false) := by
  constructor
  · intro d v hone hv
    have hfind : c.findItem key = .ok (d.get? key) :=
      findItemAux_one key c.capabilities c.capabilities.values d
        (by simpa [matchingMaps] using hone)
    rw [hv] at hfind
    exact ⟨by simp [ContextCapabilities.getItem, hfind],
           by simp [ContextCapabilities.containsKey, hfind]⟩
  · intro hzero
    have hfind : c.findItem key = .ok none :=
      findItemAux_no_match key c.capabilities c.capabilities.values none
        (by simpa [matchingMaps] using hzero)
    exact ⟨by simp [ContextCapabilities.getItem, hfind],
           by simp [ContextCapabilities.containsKey, hfind]⟩

/-- Witness for `capability_unique_and_missing` at
`capabilities = {"vm1": {"ip": 7}, "vm2": {"port": 80}}`, keys `"ip"`
(exactly one map) and `"missing"` (zero maps). -/
theorem capability_unique_and_missing_witness :
    (ContextCapabilities.getItem (α := Nat) ⟨[("vm1", [("ip", 7)]), ("vm2", [("port", 80)])]⟩ "ip"
      = .ok 7 ∧
     ContextCapabilities.containsKey (α := Nat) ⟨[("vm1", [("ip", 7)]), ("vm2", [("port", 80)])]⟩ "ip"
      = .ok true) ∧
    (ContextCapabilities.getItem (α := Nat) ⟨[("vm1", [("ip", 7)]), ("vm2", [("port", 80)])]⟩ "missing"
      = .error (.capabilityNotFound "missing" [("vm1", [("ip", 7)]), ("vm2", [("port", 80)])]) ∧
     ContextCapabilities.containsKey (α := Nat) ⟨[("vm1", [("ip", 7)]), ("vm2", [("port", 80)])]⟩ "missing"
      = .ok false) :=
  ⟨(capability_unique_and_missing ⟨[("vm1", [("ip", 7)]), ("vm2", [("port", 80)])]⟩ "ip").1
      [("ip", 7)] 7 (by decide) (by decide),
   (capability_unique_and_missing ⟨[("vm1", [("ip", 7)]), ("vm2", [("port", 80)])]⟩ "missing").2
      (by decide)⟩

/-- C8: the related view resolves `runtime_properties` from
`capabilities[related node_id]` at construction (empty when absent), its
indexed get prefers declared properties, falls back to runtime properties,
and fails with `KeyNotFound` when the key is in neither; membership is the
disjunction of the two. -/
theorem related_node_view {α : Type u} (ctx : Payload α) (rel : RelatedRecord α)
    (key : String) :
    (∀ caps rp, ctx.capabilities = some caps → caps.get? rel.node_id = some rp →
      (mkCloudifyRelatedNode ctx rel).runtime_properties = rp) ∧
    (∀ caps, ctx.capabilities = some caps → caps.get? rel.node_id = none →
      (mkCloudifyRelatedNode ctx rel).runtime_properties = []) ∧
    (ctx.capabilities = none → (mkCloudifyRelatedNode ctx rel).runtime_properties = []) ∧
    (∀ v, rel.node_properties.get? key = some v →
      (mkCloudifyRelatedNode ctx rel).getItem key = .ok v) ∧
    (∀ v, rel.node_properties.get? key = none →
      (mkCloudifyRelatedNode ctx rel).runtime_properties.get? key = some v →
      (mkCloudifyRelatedNode ctx rel).getItem key = .ok v) ∧
    (rel.node_properties.get? key = none →
      (mkCloudifyRelatedNode ctx rel).runtime_properties.get? key = none →
      (mkCloudifyRelatedNode ctx rel).getItem key = .error (.keyNotFound key)) ∧
    ((mkCloudifyRelatedNode ctx rel).containsKey key =
      (rel.node_properties.containsKey key ||
        (mkCloudifyRelatedNode ctx rel).runtime_properties.containsKey key)) := by
  refine ⟨?_, ?_, ?_, ?_, ?_, ?_, ?_⟩
  · intro caps rp hcaps hget
    simp [mkCloudifyRelatedNode, hcaps, hget]
  · intro caps hcaps hget
    simp [mkCloudifyRelatedNode, hcaps, hget]
  · intro hcaps
    simp [mkCloudifyRelatedNode, hcaps]
  · intro v hv
    have hprops : (mkCloudifyRelatedNode ctx rel).properties = rel.node_properties := rfl
    simp [CloudifyRelatedNode.getItem, hprops, Dict.containsKey, Dict.getItem, hv]
  · intro v hmiss hrt
    have hprops : (mkCloudifyRelatedNode ctx rel).properties = rel.node_properties := rfl
    simp [CloudifyRelatedNode.getItem, hprops, Dict.containsKey, Dict.getItem, hmiss, hrt]
  · intro hmiss hrt
    have hprops : (mkCloudifyRelatedNode ctx rel).properties = rel.node_properties := rfl
    simp [CloudifyRelatedNode.getItem, hprops, Dict.containsKey, Dict.getItem, hmiss, hrt]
  · rfl

/-- Witness for `related_node_view`: payload with
`capabilities = {"vm": {"ip": 9}}`, related record
`{node_id: "vm", node_properties: {"port": 1}}`; checks the runtime
resolution, both lookup branches, the `KeyNotFound` miss and membership. -/
theorem related_node_view_witness :
    ((mkCloudifyRelatedNode (α := Nat)
        { capabilities := some [("vm", [("ip", 9)])] } ⟨"vm", [("port", 1)]⟩).runtime_properties
      = [("ip", 9)]) ∧
    ((mkCloudifyRelatedNode (α := Nat)
        { capabilities := some [("vm", [("ip", 9)])] } ⟨"vm", [("port", 1)]⟩).getItem "port"
      = .ok 1) ∧
    ((mkCloudifyRelatedNode (α := Nat)
        { capabilities := some [("vm", [("ip", 9)])] } ⟨"vm", [("port", 1)]⟩).getItem "ip"
      = .ok 9) ∧
    ((mkCloudifyRelatedNode (α := Nat)
        { capabilities := some [("vm", [("ip", 9)])] } ⟨"vm", [("port", 1)]⟩).getItem "gone"
      = .error (.keyNotFound "gone")) :=
  ⟨(related_node_view { capabilities := some [("vm", [("ip", 9)])] } ⟨"vm", [("port", 1)]⟩
      "ip").1 [("vm", [("ip", 9)])] [("ip", 9)] rfl (by decide),
   ((related_node_view { capabilities := some [("vm", [("ip", 9)])] } ⟨"vm", [("port", 1)]⟩
      "port").2.2.2.1 1 (by decide)),
   ((related_node_view { capabilities := some [("vm", [("ip", 9)])] } ⟨"vm", [("port", 1)]⟩
      "ip").2.2.2.2.1 9 (by decide) (by decide)),
   ((related_node_view { capabilities := some [("vm", [("ip", 9)])] } ⟨"vm", [("port", 1)]⟩
      "gone").2.2.2.2.2.1 (by decide) (by decide))⟩

/-- C5: `update` with a cached `NodeState` persists exactly that record via
`update_node_state` and discards the cache, leaving the rest of the context
state untouched; `update` with no cached `NodeState` is a no-op making zero
storage calls and changing nothing. -/
theorem update_flush_semantics {α : Type u} (s : CtxState α) :
    (∀ ns, s.node_state = some ns →
      ctxUpdate s = ⟨.ok (), { s with node_state := none }, [.updateNodeState ns]⟩) ∧
    (s.node_state = none → ctxUpdate s = ⟨.ok (), s, []⟩) :=
  ⟨fun ns h => by simp [ctxUpdate, h], fun h => by simp [ctxUpdate, h]⟩

/-- Witness for `update_flush_semantics`: a context with a cached record
`{"k": 3}` flushes it; a context with no cached record is a no-op. -/
theorem update_flush_semantics_witness :
    (ctxUpdate (α := Nat)
        { context := { node_id := some "db1" }, node_state := some ⟨[("k", 3)]⟩,
          lifecycle_state := none }
      = ⟨.ok (),
          { context := { node_id := some "db1" }, node_state := none,
            lifecycle_state := none },
          [.updateNodeState ⟨[("k", 3)]⟩]⟩) ∧
    (ctxUpdate (α := Nat)
        { context := { node_id := some "db1" }, node_state := none,
          lifecycle_state := none }
      = ⟨.ok (),
          { context := { node_id := some "db1" }, node_state := none,
            lifecycle_state := none }, []⟩) :=
  ⟨(update_flush_semantics _).1 ⟨[("k", 3)]⟩ rfl, (update_flush_semantics _).2 rfl⟩

/-- C7: with no node identifier in the payload, `set_started`,
`set_stopped`, fetch-if-needed and `runtime_properties` all fail with
`NoNodeInContext`, and each failing call returns the state unchanged (in
particular the lifecycle flag and the node-state cache). -/
theorem no_node_in_context_fails {α : Type u} (store : String → Dict α)
    (s : CtxState α) (h : s.context.node_id = none) :
    setStarted s = ⟨.error (.noNodeInContext "Invocation requires a node in context"), s, []⟩ ∧
    setStopped s = ⟨.error (.noNodeInContext "Invocation requires a node in context"), s, []⟩ ∧
    getNodeStateIfNeeded store s =
      ⟨.error (.noNodeInContext
        "Cannot get node state - invocation is not in a context of node"), s, []⟩ ∧
    runtimeProperties store s =
      ⟨.error (.noNodeInContext
        "Cannot get node state - invocation is not in a context of node"), s, []⟩ := by
  have hg : getNodeStateIfNeeded store s =
      ⟨.error (.noNodeInContext
        "Cannot get node state - invocation is not in a context of node"), s, []⟩ := by
    simp [getNodeStateIfNeeded, h]
  refine ⟨?_, ?_, hg, ?_⟩
  · simp [setStarted, verifyNodeInContext, h]
  · simp [setStopped, verifyNodeInContext, h]
  · simp [runtimeProperties, hg]

/-- Witness for `no_node_in_context_fails` on the empty payload. -/
theorem no_node_in_context_fails_witness :
    setStarted (initCtx (α := Nat) {})
      = ⟨.error (.noNodeInContext "Invocation requires a node in context"),
          initCtx {}, []⟩ ∧
    runtimeProperties (fun _ => ([] : Dict Nat)) (initCtx {})
      = ⟨.error (.noNodeInContext
          "Cannot get node state - invocation is not in a context of node"),
          initCtx {}, []⟩ :=
  ⟨(no_node_in_context_fails (fun _ => []) (initCtx {}) rfl).1,
   (no_node_in_context_fails (fun _ => []) (initCtx {}) rfl).2.2.2⟩

/-- C6: `[]`-style set fetches the `NodeState` if needed and records the
value only in the cached record: the payload (hence the declared-properties
mapping) is unchanged, and no `update_node_state` call is made. -/
theorem setitem_routes_to_runtime {α : Type u} (store : String → Dict α)
    (s : CtxState α) (key : String) (v : α) (nid : String)
    (hnid : s.context.node_id = some nid) :
    (∀ ns, s.node_state = some ns →
      ctxSetItem store s key v =
        ⟨.ok (), { s with node_state := some (ns.setItem key v) }, []⟩) ∧
    (s.node_state = none →
      ctxSetItem store s key v =
        ⟨.ok (), { s with node_state := some (NodeState.setItem ⟨store nid⟩ key v) },
          [.getNodeState nid]⟩) ∧
    ((ctxSetItem store s key v).state.context = s.context) ∧
    (∀ ns, StorageCall.updateNodeState ns ∉ (ctxSetItem store s key v).calls) := by
  have h1 : ∀ ns, s.node_state = some ns →
      ctxSetItem store s key v =
        ⟨.ok (), { s with node_state := some (ns.setItem key v) }, []⟩ :=
    fun ns h => by simp [ctxSetItem, getNodeStateIfNeeded, hnid, h]
  have h2 : s.node_state = none →
      ctxSetItem store s key v =
        ⟨.ok (), { s with node_state := some (NodeState.setItem ⟨store nid⟩ key v) },
          [.getNodeState nid]⟩ :=
    fun h => by simp [ctxSetItem, getNodeStateIfNeeded, hnid, h]
  refine ⟨h1, h2, ?_, ?_⟩
  · cases hns : s.node_state with
    | some ns => rw [h1 ns hns]
    | none => rw [h2 hns]
  · intro ns2
    cases hns : s.node_state with
    | some ns => rw [h1 ns hns]; simp
    | none => rw [h2 hns]; simp

/-- Witness for `setitem_routes_to_runtime`: payload with declared
properties `{"port": 1}`, empty storage; setting `"port" := 9` lands in the
cached `NodeState` and the declared mapping is untouched. -/
theorem setitem_routes_to_runtime_witness :
    ctxSetItem (fun _ => ([] : Dict Nat))
        { context := { node_id := some "db1", node_properties := some [("port", 1)] },
          node_state := none, lifecycle_state := none } "port" 9
      = ⟨.ok (),
          { context := { node_id := some "db1", node_properties := some [("port", 1)] },
            node_state := some ⟨[("port", 9)]⟩, lifecycle_state := none },
          [.getNodeState "db1"]⟩ :=
  (setitem_routes_to_runtime (fun _ => []) _ "port" 9 "db1" rfl).2.1 rfl

/-- C3: combined `[]`-style lookup resolves a key from the declared
properties first, with no storage call; on a declared miss it performs
fetch-if-needed and resolves from the cached `NodeState`, failing with
`KeyNotFound` when the key is absent there too; membership follows the
same precedence, fetching only when the declared properties miss. -/
theorem combined_lookup_precedence {α : Type u} (store : String → Dict α)
    (s : CtxState α) (key : String) :
    (∀ v, s.declaredGet key = some v →
      ctxGetItem store s key = ⟨.ok v, s, []⟩ ∧
      ctxContains store s key = ⟨.ok true, s, []⟩) ∧
    (∀ nid, s.declaredGet key = none → s.context.node_id = some nid →
      (∀ ns, s.node_state = some ns →
        ctxGetItem store s key = ⟨ns.getItem key, s, []⟩ ∧
        ctxContains store s key = ⟨.ok (ns.containsKey key), s, []⟩) ∧
      (s.node_state = none →
        ctxGetItem store s key =
          ⟨NodeState.getItem ⟨store nid⟩ key,
            { s with node_state := some ⟨store nid⟩ }, [.getNodeState nid]⟩ ∧
        ctxContains store s key =
          ⟨.ok (NodeState.containsKey ⟨store nid⟩ key),
            { s with node_state := some ⟨store nid⟩ }, [.getNodeState nid]⟩)) ∧
    (∀ nid ns, s.declaredGet key = none → s.context.node_id = some nid →
      s.node_state = some ns → ns.containsKey key = false →
      (ctxGetItem store s key).result = .error (.keyNotFound key)) := by
  refine ⟨?_, ?_, ?_⟩
  · intro v hv
    constructor
    · simp [ctxGetItem, hv]
    · simp [ctxContains, hv]
  · intro nid hmiss hnid
    constructor
    · intro ns hns
      constructor
      · simp [ctxGetItem, getNodeStateIfNeeded, hmiss, hnid, hns]
      · simp [ctxContains, getNodeStateIfNeeded, hmiss, hnid, hns]
    · intro hns
      constructor
      · simp [ctxGetItem, getNodeStateIfNeeded, hmiss, hnid, hns]
      · simp [ctxContains, getNodeStateIfNeeded, hmiss, hnid, hns]
  · intro nid ns hmiss hnid hns hnc
    have hget : ctxGetItem store s key = ⟨ns.getItem key, s, []⟩ := by
      simp [ctxGetItem, getNodeStateIfNeeded, hmiss, hnid, hns]
    rw [hget]
    cases hq : Dict.get? ns.runtime_properties key with
    | some w =>
      rw [NodeState.containsKey, Dict.containsKey, hq] at hnc
      simp at hnc
    | none => simp [NodeState.getItem, Dict.getItem, hq]

/-- Witness for `combined_lookup_precedence`, the spec's scenario: payload
`{node_id: "db1", node_properties: {"port": 5432}}`, storage returning `{}`
for every node.  `ctx["port"]` yields 5432 with no storage call;
`ctx["host"]` triggers the fetch and fails with `KeyNotFound`. -/
theorem combined_lookup_precedence_witness :
    (ctxGetItem (fun _ => ([] : Dict Nat))
        { context := { node_id := some "db1", node_properties := some [("port", 5432)] },
          node_state := none, lifecycle_state := none } "port"
      = ⟨.ok 5432,
          { context := { node_id := some "db1", node_properties := some [("port", 5432)] },
            node_state := none, lifecycle_state := none }, []⟩) ∧
    (ctxGetItem (fun _ => ([] : Dict Nat))
        { context := { node_id := some "db1", node_properties := some [("port", 5432)] },
          node_state := none, lifecycle_state := none } "host"
      = ⟨.error (.keyNotFound "host"),
          { context := { node_id := some "db1", node_properties := some [("port", 5432)] },
            node_state := some ⟨[]⟩, lifecycle_state := none },
          [.getNodeState "db1"]⟩) :=
  ⟨((combined_lookup_precedence (fun _ => [])
      { context := { node_id := some "db1", node_properties := some [("port", 5432)] },
        node_state := none, lifecycle_state := none } "port").1 5432 rfl).1,
   (((combined_lookup_precedence (fun _ => [])
      { context := { node_id := some "db1", node_properties := some [("port", 5432)] },
        node_state := none, lifecycle_state := none } "host").2.1 "db1" rfl rfl).2 rfl).1⟩

/-- Repeated `runtime_properties` accesses on a context whose `NodeState`
is already cached make no storage call and do not change the state. -/
theorem runtimePropsN_cached {α : Type u} (store : String → Dict α) (n : Nat)
    (s : CtxState α) (nid : String) (ns : NodeState α)
    (hnid : s.context.node_id = some nid) (hns : s.node_state = some ns) :
    runtimePropsN store n s = (s, []) := by
  induction n with
  | zero => rfl
  | succ n ih =>
    have ho : runtimeProperties store s = ⟨.ok ns.runtime_properties, s, []⟩ := by
      simp [runtimeProperties, getNodeStateIfNeeded, hnid, hns]
    simp [runtimePropsN, ho, ih]

/-- C4: with a node in context and an empty cache, any positive number of
`runtime_properties` accesses makes exactly one `get_node_state` call (the
first access fetches, later ones reuse the cache); and after a flush via
`update`, the next `runtime_properties` access makes exactly one new
`get_node_state` call. -/
theorem runtime_props_fetch_once {α : Type u} (store : String → Dict α)
    (s : CtxState α) (nid : String) (hnid : s.context.node_id = some nid) :
    (∀ n, 1 ≤ n → s.node_state = none →
      (runtimePropsN store n s).2 = [.getNodeState nid]) ∧
    ((runtimeProperties store (ctxUpdate s).state).calls = [.getNodeState nid]) := by
  constructor
  · intro n hn hns
    cases n with
    | zero => omega
    | succ m =>
      have ho : runtimeProperties store s =
          ⟨.ok (store nid),
            { s with node_state := some ⟨store nid⟩ }, [.getNodeState nid]⟩ := by
        simp [runtimeProperties, getNodeStateIfNeeded, hnid, hns]
      have hrest : runtimePropsN store m { s with node_state := some ⟨store nid⟩ } =
          ({ s with node_state := some ⟨store nid⟩ }, []) :=
        runtimePropsN_cached store m _ nid ⟨store nid⟩ hnid rfl
      simp [runtimePropsN, ho, hrest]
  · have hnone : (ctxUpdate s).state.node_state = none := by
      cases hns : s.node_state <;> simp [ctxUpdate, hns]
    have hctx : (ctxUpdate s).state.context = s.context := by
      cases hns : s.node_state <;> simp [ctxUpdate, hns]
    simp [runtimeProperties, getNodeStateIfNeeded, hnone, hctx, hnid]

/-- Witness for `runtime_props_fetch_once`: three consecutive accesses on a
fresh `"db1"` context make exactly one `get_node_state("db1")` call, and
the access following a flush makes exactly one more. -/
theorem runtime_props_fetch_once_witness :
    ((runtimePropsN (fun _ => [("a", 1)]) 3
        (initCtx (α := Nat) { node_id := some "db1" })).2
      = [.getNodeState "db1"]) ∧
    ((runtimeProperties (fun _ => [("a", 1)])
        (ctxUpdate (initCtx (α := Nat) { node_id := some "db1" })).state).calls
      = [.getNodeState "db1"]) :=
  ⟨(runtime_props_fetch_once (fun _ => [("a", 1)]) _ "db1" rfl).1 3 (by decide) rfl,
   (runtime_props_fetch_once (fun _ => [("a", 1)]) _ "db1" rfl).2⟩

/-- C9, evaluated at the failing input: the logger registered under the
task name `"pkg.task"` already carries two handlers.  `_init_cloudify_logger`
names the logger after the task name, leaves propagation enabled and
attaches the context-aware handler — but its removal loop iterates the very
list it shrinks, so the second prior handler slides under the cursor and
stays attached, contradicting "every prior handler is detached". -/
theorem logger_wiring_skips_second_handler :
    (initCloudifyLogger
        [("pkg.task", { level := 0, handlers := [.prior 0, .prior 1], propagate := false })]
        (some "pkg.task")).2 = "pkg.task" ∧
    (getLogger (initCloudifyLogger
        [("pkg.task", { level := 0, handlers := [.prior 0, .prior 1], propagate := false })]
        (some "pkg.task")).1 "pkg.task")
      = { level := INFO, handlers := [.prior 1, .cloudify], propagate := true } ∧
    Handler.prior 1 ∈ (getLogger (initCloudifyLogger
        [("pkg.task", { level := 0, handlers := [.prior 0, .prior 1], propagate := false })]
        (some "pkg.task")).1 "pkg.task").handlers := by
  refine ⟨rfl, by decide, by decide⟩

/-- No state has the lifecycle flag at `STARTED` and `STOPPED` at once. -/
theorem lifecycle_states_exclusive {α : Type u} (s : CtxState α) :
    ¬(isSetStarted s = true ∧ isSetStopped s = true) := by
  rintro ⟨h1, h2⟩
  simp only [isSetStarted, isSetStopped, decide_eq_true_eq] at h1 h2
  rw [h1] at h2
  exact absurd (Option.some.inj h2) (by decide)

/-- C10: the lifecycle flag starts unset (both predicates false); after any
sequence of context operations at most one of `is_set_started` and
`is_set_stopped` is true; and with a node in context, `set_started` leaves
`is_set_stopped` false while `set_stopped` leaves `is_set_started` false
(last setter wins). -/
theorem lifecycle_flag_protocol {α : Type u} (store : String → Dict α) (p : Payload α) :
    (isSetStarted (initCtx p) = false ∧ isSetStopped (initCtx p) = false) ∧
    (∀ ops : List (CtxOp α),
      ¬(isSetStarted (runOps store ops (initCtx p)) = true ∧
        isSetStopped (runOps store ops (initCtx p)) = true)) ∧
    (∀ (s : CtxState α) (nid : String), s.context.node_id = some nid →
      isSetStopped (setStarted s).state = false ∧
      isSetStarted (setStopped s).state = false) := by
  refine ⟨⟨rfl, rfl⟩, fun ops => lifecycle_states_exclusive _, ?_⟩
  intro s nid hnid
  constructor
  · simp only [setStarted, verifyNodeInContext, hnid, isSetStopped]
    decide
  · simp only [setStopped, verifyNodeInContext, hnid, isSetStarted]
    decide

/-- Witness for `lifecycle_flag_protocol` on a `"db1"` context: after
`set_started` the stopped predicate is false; a `set_started` followed by
`set_stopped` does not leave both predicates true. -/
theorem lifecycle_flag_protocol_witness :
    isSetStopped (setStarted (initCtx (α := Nat) { node_id := some "db1" })).state = false ∧
    ¬(isSetStarted (runOps (fun _ => ([] : Dict Nat)) [.startedOp, .stoppedOp]
        (initCtx { node_id := some "db1" })) = true ∧
      isSetStopped (runOps (fun _ => ([] : Dict Nat)) [.startedOp, .stoppedOp]
        (initCtx { node_id := some "db1" })) = true) :=
  ⟨((lifecycle_flag_protocol (fun _ => []) { node_id := some "db1" }).2.2
      (initCtx { node_id := some "db1" }) "db1" rfl).1,
   (lifecycle_flag_protocol (fun _ => []) { node_id := some "db1" }).2.1
      [.startedOp, .stoppedOp]⟩
